import Mathlib

set_option maxRecDepth 8192

/-!
# Friendly SDK: request/response contract layer, shallowly embedded

This file embeds the Friendly client SDK (Go) in Lean 4: the domain value
types with their construction-time validators, a JSON value model mirroring
the behaviour of Go's encoding/json on the concrete payload structs, the
request executor's header and body construction, and each endpoint
operation's HTTP-status classification and body decoding.

The HTTP layer is modelled at the value level: a response is a status code
plus an already-parsed JSON body, and each endpoint operation is embedded as
the pure function from the response to the operation's result, exactly
following the branch structure of the Go code.  Error values are an
inductive with one constructor per `fmt.Errorf` site pattern, carrying
exactly the data the Go format string interpolates.
-/

namespace Friendly

/-! ## Domain value types (api/types.go) -/

abbrev UserId := Int

abbrev UserAccessHash := String

abbrev Token := String

abbrev Nickname := String

abbrev UserDescription := String

abbrev Interest := String

abbrev FriendToken := String

abbrev FileId := Int

abbrev FileAccessHash := String

/-- Authorization composes user id, access hash and token. -/
structure Authorization where
  id : UserId
  accessHash : UserAccessHash
  token : Token
deriving DecidableEq

/-- FileDescriptor composes a file id and access hash. -/
structure FileDescriptor where
  id : FileId
  accessHash : FileAccessHash
deriving DecidableEq

/-- UserDetails: complete information about a user. -/
structure UserDetails where
  id : UserId
  accessHash : UserAccessHash
  nickname : Nickname
  description : UserDescription
  interests : List Interest
  avatar : Option FileDescriptor
deriving DecidableEq

/-- NetworkDetails: the user's friends list. -/
structure NetworkDetails where
  friends : List UserDetails
deriving DecidableEq

/-- FeedEntry: a single entry of the feed. -/
structure FeedEntry where
  isExtendedNetwork : Bool
  commonFriends : List UserDetails
  details : UserDetails
deriving DecidableEq

/-- FeedQueue: ordered queue of feed entries. -/
structure FeedQueue where
  entries : List FeedEntry
deriving DecidableEq

/-! ## Validating constructors (api/types.go)

Each `New*` mirrors the Go function: a length check, then an identity wrap.
The `error` side carries the `fmt.Errorf` message text. -/

def NewNickname (s : String) : Except String Nickname :=
  if s.length > 256 then
    Except.error ("nickname too long: " ++ toString s.length ++ " > 256")
  else
    Except.ok s

def NewUserDescription (s : String) : Except String UserDescription :=
  if s.length > 1024 then
    Except.error ("description too long: " ++ toString s.length ++ " > 1024")
  else
    Except.ok s

def NewInterest (s : String) : Except String Interest :=
  if s.length > 64 then
    Except.error ("interest too long: " ++ toString s.length ++ " > 64")
  else
    Except.ok s

def NewToken (s : String) : Except String Token :=
  if s.length ≠ 256 then
    Except.error ("token must be 256 characters, got " ++ toString s.length)
  else
    Except.ok s

def NewUserAccessHash (s : String) : Except String UserAccessHash :=
  if s.length ≠ 256 then
    Except.error ("access hash must be 256 characters, got " ++ toString s.length)
  else
    Except.ok s

def NewFileAccessHash (s : String) : Except String FileAccessHash :=
  if s.length ≠ 256 then
    Except.error ("file access hash must be 256 characters, got " ++ toString s.length)
  else
    Except.ok s

def NewFriendToken (s : String) : Except String FriendToken :=
  if s.length ≠ 256 then
    Except.error ("friend token must be 256 characters, got " ++ toString s.length)
  else
    Except.ok s

/-! ## JSON value model

Responses and request payloads are JSON values.  Numbers are integers (all
numeric fields of the wire format are 64-bit integer ids). -/

inductive Json where
  | null
  | bool (b : Bool)
  | num (n : Int)
  | str (s : String)
  | arr (elems : List Json)
  | obj (fields : List (String × Json))

/-- Field lookup in a decoded JSON object.  Go's decoder processes keys in
order, a later duplicate overwriting an earlier one, and a missing key
behaves like an explicit `null` (no effect on the zero-valued target). -/
def getField (fields : List (String × Json)) (key : String) : Json :=
  match fields.foldl (fun acc p => if p.1 == key then some p.2 else acc) none with
  | some v => v
  | none => Json.null

/-! ## Decoders: Go `encoding/json` unmarshalling at the payload types

`null` has no effect on the target, which starts at its zero value; a type
mismatch is an unmarshalling error. -/

def decodeStr : Json → Except String String
  | Json.str s => Except.ok s
  | Json.null => Except.ok ""
  | _ => Except.error "json: cannot unmarshal value into string"

def decodeInt : Json → Except String Int
  | Json.num n => Except.ok n
  | Json.null => Except.ok 0
  | _ => Except.error "json: cannot unmarshal value into int64"

def decodeBool : Json → Except String Bool
  | Json.bool b => Except.ok b
  | Json.null => Except.ok false
  | _ => Except.error "json: cannot unmarshal value into bool"

/-- Element-wise decoding of a JSON array, stopping at the first failure,
as Go's decoder fills a slice. -/
def decodeEach (dec : Json → Except String α) : List Json → Except String (List α)
  | [] => Except.ok []
  | j :: rest => do
    let x ← dec j
    let xs ← decodeEach dec rest
    Except.ok (x :: xs)

def decodeList (dec : Json → Except String α) : Json → Except String (List α)
  | Json.arr xs => decodeEach dec xs
  | Json.null => Except.ok []
  | _ => Except.error "json: cannot unmarshal value into slice"

def decodeFileDescriptor : Json → Except String FileDescriptor
  | Json.obj fs => do
    let id ← decodeInt (getField fs "id")
    let accessHash ← decodeStr (getField fs "accessHash")
    Except.ok ⟨id, accessHash⟩
  | Json.null => Except.ok ⟨0, ""⟩
  | _ => Except.error "json: cannot unmarshal value into FileDescriptor"

/-- A `*FileDescriptor` field: `null` leaves the pointer nil. -/
def decodeOptFileDescriptor : Json → Except String (Option FileDescriptor)
  | Json.null => Except.ok none
  | j =>
    match decodeFileDescriptor j with
    | Except.ok d => Except.ok (some d)
    | Except.error e => Except.error e

def decodeUserDetails : Json → Except String UserDetails
  | Json.obj fs => do
    let id ← decodeInt (getField fs "id")
    let accessHash ← decodeStr (getField fs "accessHash")
    let nickname ← decodeStr (getField fs "nickname")
    let description ← decodeStr (getField fs "description")
    let interests ← decodeList decodeStr (getField fs "interests")
    let avatar ← decodeOptFileDescriptor (getField fs "avatar")
    Except.ok ⟨id, accessHash, nickname, description, interests, avatar⟩
  | Json.null => Except.ok ⟨0, "", "", "", [], none⟩
  | _ => Except.error "json: cannot unmarshal value into UserDetails"

def decodeFeedEntry : Json → Except String FeedEntry
  | Json.obj fs => do
    let isExtendedNetwork ← decodeBool (getField fs "isExtendedNetwork")
    let commonFriends ← decodeList decodeUserDetails (getField fs "commonFriends")
    let details ← decodeUserDetails (getField fs "details")
    Except.ok ⟨isExtendedNetwork, commonFriends, details⟩
  | Json.null => Except.ok ⟨false, [], ⟨0, "", "", "", [], none⟩⟩
  | _ => Except.error "json: cannot unmarshal value into FeedEntry"

def decodeFeedQueue : Json → Except String FeedQueue
  | Json.obj fs => do
    let entries ← decodeList decodeFeedEntry (getField fs "entries")
    Except.ok ⟨entries⟩
  | Json.null => Except.ok ⟨[]⟩
  | _ => Except.error "json: cannot unmarshal value into FeedQueue"

def decodeNetworkDetails : Json → Except String NetworkDetails
  | Json.obj fs => do
    let friends ← decodeList decodeUserDetails (getField fs "friends")
    Except.ok ⟨friends⟩
  | Json.null => Except.ok ⟨[]⟩
  | _ => Except.error "json: cannot unmarshal value into NetworkDetails"

/-! ## Encoders: Go `encoding/json` marshalling of the payload structs -/

def encodeFileDescriptor (d : FileDescriptor) : Json :=
  Json.obj [("id", Json.num d.id), ("accessHash", Json.str d.accessHash)]

def encodeOptFileDescriptor : Option FileDescriptor → Json
  | none => Json.null
  | some d => encodeFileDescriptor d

def encodeUserDetails (u : UserDetails) : Json :=
  Json.obj
    [("id", Json.num u.id),
     ("accessHash", Json.str u.accessHash),
     ("nickname", Json.str u.nickname),
     ("description", Json.str u.description),
     ("interests", Json.arr (u.interests.map Json.str)),
     ("avatar", encodeOptFileDescriptor u.avatar)]

def encodeFeedEntry (e : FeedEntry) : Json :=
  Json.obj
    [("isExtendedNetwork", Json.bool e.isExtendedNetwork),
     ("commonFriends", Json.arr (e.commonFriends.map encodeUserDetails)),
     ("details", encodeUserDetails e.details)]

def encodeFeedQueue (q : FeedQueue) : Json :=
  Json.obj [("entries", Json.arr (q.entries.map encodeFeedEntry))]

/-! ## Request payload structs and their encoders -/

/-- Payload of POST /auth/generate. -/
structure generateRequest where
  nickname : Nickname
  description : UserDescription
  interests : List Interest
  avatar : Option FileDescriptor
deriving DecidableEq

def encodeGenerateRequest (r : generateRequest) : Json :=
  Json.obj
    [("nickname", Json.str r.nickname),
     ("description", Json.str r.description),
     ("interests", Json.arr (r.interests.map Json.str)),
     ("avatar", encodeOptFileDescriptor r.avatar)]

/-- Payload of POST /friends/add. -/
structure addFriendRequest where
  token : FriendToken
  userId : UserId
deriving DecidableEq

def encodeAddFriendRequest (r : addFriendRequest) : Json :=
  Json.obj [("token", Json.str r.token), ("userId", Json.num r.userId)]

/-- Payload of POST /friends/request and /friends/decline. -/
structure friendRequestRequest where
  userId : UserId
  accessHash : UserAccessHash
deriving DecidableEq

def encodeFriendRequestRequest (r : friendRequestRequest) : Json :=
  Json.obj [("userId", Json.num r.userId), ("userAccessHash", Json.str r.accessHash)]

/-! ## Response payload structs and their decoders -/

/-- Body of a 200 answer to /auth/generate. -/
structure generateResponse where
  id : UserId
  accessHash : UserAccessHash
  token : Token
deriving DecidableEq

def decodeGenerateResponse : Json → Except String generateResponse
  | Json.obj fs => do
    let id ← decodeInt (getField fs "id")
    let accessHash ← decodeStr (getField fs "accessHash")
    let token ← decodeStr (getField fs "token")
    Except.ok ⟨id, accessHash, token⟩
  | Json.null => Except.ok ⟨0, "", ""⟩
  | _ => Except.error "json: cannot unmarshal value into generateResponse"

/-- Body of a 200 answer to /friends/generate. -/
structure generateFriendTokenResponse where
  token : FriendToken
deriving DecidableEq

def decodeGenerateFriendTokenResponse : Json → Except String generateFriendTokenResponse
  | Json.obj fs => do
    let token ← decodeStr (getField fs "token")
    Except.ok ⟨token⟩
  | Json.null => Except.ok ⟨""⟩
  | _ => Except.error "json: cannot unmarshal value into generateFriendTokenResponse"

/-- Body of a 200 answer to /friends/add: the `type` discriminator. -/
structure addFriendResponse where
  type : String
deriving DecidableEq

def decodeAddFriendResponse : Json → Except String addFriendResponse
  | Json.obj fs => do
    let type ← decodeStr (getField fs "type")
    Except.ok ⟨type⟩
  | Json.null => Except.ok ⟨""⟩
  | _ => Except.error "json: cannot unmarshal value into addFriendResponse"

/-- Body of a 200 answer to /files/upload. -/
structure uploadFileResponse where
  id : FileId
  accessHash : FileAccessHash
deriving DecidableEq

def decodeUploadFileResponse : Json → Except String uploadFileResponse
  | Json.obj fs => do
    let id ← decodeInt (getField fs "id")
    let accessHash ← decodeStr (getField fs "accessHash")
    Except.ok ⟨id, accessHash⟩
  | Json.null => Except.ok ⟨0, ""⟩
  | _ => Except.error "json: cannot unmarshal value into uploadFileResponse"

/-! ## Request executor (api/client.go, `Client.do`)

The transport itself is outside the model; what is embedded is the request
the executor builds: URL concatenation, the `Content-Type` header, the two
auth headers when an `Authorization` is present, and the marshalled body
when a payload is present. -/

structure HttpRequest where
  method : String
  url : String
  headers : List (String × String)
  body : Option Json

/-- The request built by `Client.do` for endpoint `endpoint`, HTTP method
`method`, path `path`, optional auth and optional payload (marshalled by
`enc`, as `json.Marshal` does for the payload struct). -/
def doRequest (endpoint method path : String) (auth : Option Authorization)
    (body : Option α) (enc : α → Json) : HttpRequest :=
  { method := method
    url := endpoint ++ path
    headers :=
      [("Content-Type", "application/json")] ++
        (match auth with
         | some a => [("X-User-Id", toString a.id), ("X-Token", a.token)]
         | none => [])
    body := body.map enc }

/-! ## Endpoint operations: status classification and body decoding

A response is a status code and a parsed JSON body.  Each operation below is
the Go method's code after `do` returns, embedded branch for branch.  Errors
carry exactly the data interpolated at the corresponding `fmt.Errorf` site:
`status ctx c` stands for `fmt.Errorf("<ctx> failed: status %d", c)`, and
`statusWithBody` for `Generate`'s error that also includes the body text. -/

structure HttpResponse where
  statusCode : Nat
  body : Json

inductive ApiError where
  | unauthorized
  | userNotFound
  | status (context : String) (code : Nat)
  | statusWithBody (code : Nat) (body : Json)
  | decodeFailure (msg : String)
  | friendTokenExpired

/-- The HTTP status code an error reports, when it reports one. -/
def ApiError.carriedCode : ApiError → Option Nat
  | ApiError.status _ c => some c
  | ApiError.statusWithBody c _ => some c
  | _ => none

/-- The response body an error carries, when it carries one. -/
def ApiError.carriedBody : ApiError → Option Json
  | ApiError.statusWithBody _ b => some b
  | _ => none

/-- users.go `GetSelfDetails`: interpretation of the response. -/
def GetSelfDetails (resp : HttpResponse) : Except ApiError UserDetails :=
  if resp.statusCode = 401 then Except.error ApiError.unauthorized
  else if resp.statusCode ≠ 200 then
    Except.error (ApiError.status "get details" resp.statusCode)
  else
    match decodeUserDetails resp.body with
    | Except.error e => Except.error (ApiError.decodeFailure e)
    | Except.ok details => Except.ok details

/-- users.go `GetUserDetails`: interpretation of the response. -/
def GetUserDetails (resp : HttpResponse) : Except ApiError UserDetails :=
  if resp.statusCode = 401 then Except.error ApiError.unauthorized
  else if resp.statusCode ≠ 200 then
    Except.error (ApiError.status "get user details" resp.statusCode)
  else
    match decodeUserDetails resp.body with
    | Except.error e => Except.error (ApiError.decodeFailure e)
    | Except.ok details => Except.ok details

/-- auth.go `Generate`: no 401 special case; any non-200 yields the error
that carries both the status and the body text. -/
def Generate (nickname : Nickname) (description : UserDescription)
    (interests : List Interest) (avatar : Option FileDescriptor)
    (resp : HttpResponse) : Except ApiError Authorization :=
  if resp.statusCode ≠ 200 then
    Except.error (ApiError.statusWithBody resp.statusCode resp.body)
  else
    match decodeGenerateResponse resp.body with
    | Except.error e => Except.error (ApiError.decodeFailure e)
    | Except.ok g => Except.ok ⟨g.id, g.accessHash, g.token⟩

/-- auth.go `Generate`: the request it sends. -/
def GenerateRequestOf (endpoint : String) (nickname : Nickname)
    (description : UserDescription) (interests : List Interest)
    (avatar : Option FileDescriptor) : HttpRequest :=
  doRequest endpoint "POST" "/auth/generate" none
    (some ⟨nickname, description, interests, avatar⟩) encodeGenerateRequest

/-- friends.go `GenerateFriendToken`: interpretation of the response. -/
def GenerateFriendToken (resp : HttpResponse) : Except ApiError FriendToken :=
  if resp.statusCode = 401 then Except.error ApiError.unauthorized
  else if resp.statusCode ≠ 200 then
    Except.error (ApiError.status "generate token" resp.statusCode)
  else
    match decodeGenerateFriendTokenResponse resp.body with
    | Except.error e => Except.error (ApiError.decodeFailure e)
    | Except.ok tokenResp => Except.ok tokenResp.token

/-- friends.go `AddFriend`: after a 200, the decoded body's `type`
discriminator `"FriendTokenExpired"` is a semantic failure. -/
def AddFriend (resp : HttpResponse) : Except ApiError Unit :=
  if resp.statusCode = 401 then Except.error ApiError.unauthorized
  else if resp.statusCode ≠ 200 then
    Except.error (ApiError.status "add friend" resp.statusCode)
  else
    match decodeAddFriendResponse resp.body with
    | Except.error e => Except.error (ApiError.decodeFailure e)
    | Except.ok addResp =>
      if addResp.type = "FriendTokenExpired" then
        Except.error ApiError.friendTokenExpired
      else
        Except.ok ()

/-- friends.go `SendFriendRequest`: 401, then 404, then other non-200. -/
def SendFriendRequest (resp : HttpResponse) : Except ApiError Unit :=
  if resp.statusCode = 401 then Except.error ApiError.unauthorized
  else if resp.statusCode = 404 then Except.error ApiError.userNotFound
  else if resp.statusCode ≠ 200 then
    Except.error (ApiError.status "send request" resp.statusCode)
  else Except.ok ()

/-- friends.go `DeclineFriendRequest`: 401, then 404, then other non-200. -/
def DeclineFriendRequest (resp : HttpResponse) : Except ApiError Unit :=
  if resp.statusCode = 401 then Except.error ApiError.unauthorized
  else if resp.statusCode = 404 then Except.error ApiError.userNotFound
  else if resp.statusCode ≠ 200 then
    Except.error (ApiError.status "decline request" resp.statusCode)
  else Except.ok ()

/-- network.go `GetNetworkDetails`: interpretation of the response. -/
def GetNetworkDetails (resp : HttpResponse) : Except ApiError NetworkDetails :=
  if resp.statusCode = 401 then Except.error ApiError.unauthorized
  else if resp.statusCode ≠ 200 then
    Except.error (ApiError.status "get network" resp.statusCode)
  else
    match decodeNetworkDetails resp.body with
    | Except.error e => Except.error (ApiError.decodeFailure e)
    | Except.ok network => Except.ok network

/-- feed.go `GetFeedQueue`: interpretation of the response. -/
def GetFeedQueue (resp : HttpResponse) : Except ApiError FeedQueue :=
  if resp.statusCode = 401 then Except.error ApiError.unauthorized
  else if resp.statusCode ≠ 200 then
    Except.error (ApiError.status "get feed" resp.statusCode)
  else
    match decodeFeedQueue resp.body with
    | Except.error e => Except.error (ApiError.decodeFailure e)
    | Except.ok feed => Except.ok feed

/-- files.go `UploadFile`: response interpretation (no 401 special case). -/
def UploadFile (resp : HttpResponse) : Except ApiError FileDescriptor :=
  if resp.statusCode ≠ 200 then
    Except.error (ApiError.status "upload" resp.statusCode)
  else
    match decodeUploadFileResponse resp.body with
    | Except.error e => Except.error (ApiError.decodeFailure e)
    | Except.ok uploadResp => Except.ok ⟨uploadResp.id, uploadResp.accessHash⟩

/-- files.go `GetFileURL`: pure URL composition,
`fmt.Sprintf("%s/files/download/%d/%s", c.url, d.Id, d.AccessHash)`. -/
def GetFileURL (endpoint : String) (descriptor : FileDescriptor) : String :=
  endpoint ++ "/files/download/" ++ toString descriptor.id ++ "/" ++ descriptor.accessHash

/-! ## Helper lemmas -/

theorem ok_bind {α β : Type} (a : α) (f : α → Except String β) :
    (Except.ok a : Except String α) >>= f = f a := rfl

theorem except_pure {β : Type} (a : β) : (pure a : Except String β) = Except.ok a := rfl

theorem decodeStr_str (s : String) : decodeStr (Json.str s) = Except.ok s := rfl

theorem decodeEach_map_encode {β : Type} (enc : β → Json) (dec : Json → Except String β)
    (h : ∀ x, dec (enc x) = Except.ok x) (xs : List β) :
    decodeEach dec (xs.map enc) = Except.ok xs := by
  induction xs with
  | nil => rfl
  | cons x xs ih => simp [decodeEach, h, ih, ok_bind, except_pure]

/-! ## Claims -/

/-- C1: whenever `AddFriend` sees a 200 response whose body decodes to an
object whose `type` field equals `"FriendTokenExpired"`, it fails with the
expired-token error; the 200 status alone does not make the call succeed. -/
theorem addFriend_fails_on_expired_discriminator (resp : HttpResponse)
    (h200 : resp.statusCode = 200)
    (hdec : decodeAddFriendResponse resp.body = Except.ok ⟨"FriendTokenExpired"⟩) :
    AddFriend resp = Except.error ApiError.friendTokenExpired := by
  simp [AddFriend, h200, hdec]

/-- C1 witness: a concrete 200 response with the expiry discriminator. -/
theorem addFriend_fails_on_expired_discriminator_witness :
    AddFriend { statusCode := 200, body := Json.obj [("type", Json.str "FriendTokenExpired")] } =
      Except.error ApiError.friendTokenExpired :=
  addFriend_fails_on_expired_discriminator
    { statusCode := 200, body := Json.obj [("type", Json.str "FriendTokenExpired")] } rfl rfl

/-- C3: every authenticated operation maps a 401 response to the
`unauthorized` error, not to the generic status error. -/
theorem authenticated_ops_fail_unauthorized_on_401 (resp : HttpResponse)
    (h : resp.statusCode = 401) :
    GetSelfDetails resp = Except.error ApiError.unauthorized ∧
    GetUserDetails resp = Except.error ApiError.unauthorized ∧
    GenerateFriendToken resp = Except.error ApiError.unauthorized ∧
    AddFriend resp = Except.error ApiError.unauthorized ∧
    SendFriendRequest resp = Except.error ApiError.unauthorized ∧
    DeclineFriendRequest resp = Except.error ApiError.unauthorized ∧
    GetNetworkDetails resp = Except.error ApiError.unauthorized ∧
    GetFeedQueue resp = Except.error ApiError.unauthorized := by
  refine ⟨?_, ?_, ?_, ?_, ?_, ?_, ?_, ?_⟩ <;>
    simp [GetSelfDetails, GetUserDetails, GenerateFriendToken, AddFriend, SendFriendRequest,
      DeclineFriendRequest, GetNetworkDetails, GetFeedQueue, h]

/-- C3 witness: a concrete 401 response against `GetFeedQueue`. -/
theorem authenticated_ops_fail_unauthorized_on_401_witness :
    GetFeedQueue { statusCode := 401, body := Json.null } =
      Except.error ApiError.unauthorized :=
  (authenticated_ops_fail_unauthorized_on_401
    { statusCode := 401, body := Json.null } rfl).2.2.2.2.2.2.2

/-- C4: each exact-size constructor succeeds iff the string length is
exactly 256; in particular 255 and 257 both fail (see the witness). -/
theorem exact_size_ctors_succeed_iff_length_256 (s : String) :
    ((NewToken s).isOk = true ↔ s.length = 256) ∧
    ((NewUserAccessHash s).isOk = true ↔ s.length = 256) ∧
    ((NewFileAccessHash s).isOk = true ↔ s.length = 256) ∧
    ((NewFriendToken s).isOk = true ↔ s.length = 256) := by
  by_cases h : s.length = 256 <;>
    simp [NewToken, NewUserAccessHash, NewFileAccessHash, NewFriendToken, h,
      Except.isOk, Except.toBool]

/-- C4 witness: length 256 succeeds, the off-by-one lengths 255 and 257
both fail. -/
theorem exact_size_ctors_succeed_iff_length_256_witness :
    (NewToken (String.mk (List.replicate 256 'a'))).isOk = true ∧
    (NewToken (String.mk (List.replicate 255 'a'))).isOk = false ∧
    (NewToken (String.mk (List.replicate 257 'a'))).isOk = false ∧
    (NewUserAccessHash (String.mk (List.replicate 256 'a'))).isOk = true ∧
    (NewFileAccessHash (String.mk (List.replicate 256 'a'))).isOk = true ∧
    (NewFriendToken (String.mk (List.replicate 256 'a'))).isOk = true :=
  ⟨(exact_size_ctors_succeed_iff_length_256 (String.mk (List.replicate 256 'a'))).1.mpr
      (by decide),
   by decide, by decide,
   (exact_size_ctors_succeed_iff_length_256 (String.mk (List.replicate 256 'a'))).2.1.mpr
      (by decide),
   (exact_size_ctors_succeed_iff_length_256 (String.mk (List.replicate 256 'a'))).2.2.1.mpr
      (by decide),
   (exact_size_ctors_succeed_iff_length_256 (String.mk (List.replicate 256 'a'))).2.2.2.mpr
      (by decide)⟩

/-- C5: `NewNickname` succeeds iff length ≤ 256 and round-trips the string
unchanged; `NewUserDescription` succeeds iff length ≤ 1024; `NewInterest`
succeeds iff length ≤ 64. -/
theorem bounded_ctors_succeed_iff_within_bound (s : String) :
    ((NewNickname s).isOk = true ↔ s.length ≤ 256) ∧
    (∀ n, NewNickname s = Except.ok n → n = s) ∧
    ((NewUserDescription s).isOk = true ↔ s.length ≤ 1024) ∧
    ((NewInterest s).isOk = true ↔ s.length ≤ 64) := by
  refine ⟨?_, ?_, ?_, ?_⟩
  · by_cases h : s.length ≤ 256
    · rw [NewNickname, if_neg (by omega)]
      simp [Except.isOk, Except.toBool, h]
    · rw [NewNickname, if_pos (by omega)]
      simp [Except.isOk, Except.toBool, h]
  · intro n hn
    by_cases h : s.length > 256
    · rw [NewNickname, if_pos h] at hn
      simp at hn
    · rw [NewNickname, if_neg h] at hn
      simp at hn
      exact hn.symm
  · by_cases h : s.length ≤ 1024
    · rw [NewUserDescription, if_neg (by omega)]
      simp [Except.isOk, Except.toBool, h]
    · rw [NewUserDescription, if_pos (by omega)]
      simp [Except.isOk, Except.toBool, h]
  · by_cases h : s.length ≤ 64
    · rw [NewInterest, if_neg (by omega)]
      simp [Except.isOk, Except.toBool, h]
    · rw [NewInterest, if_pos (by omega)]
      simp [Except.isOk, Except.toBool, h]

/-- C5 witness: a short nickname is accepted and round-trips unchanged. -/
theorem bounded_ctors_succeed_iff_within_bound_witness :
    (NewNickname "bob").isOk = true ∧ ("bob" : String) = "bob" :=
  ⟨(bounded_ctors_succeed_iff_within_bound "bob").1.mpr (by decide),
   (bounded_ctors_succeed_iff_within_bound "bob").2.1 "bob" rfl⟩

/-- C7: `GetFileURL` is pure string composition: base URL, the literal
segment, the decimal id and the access hash; in particular base
`"https://x"`, id 42, hash `"h"` yields `"https://x/files/download/42/h"`. -/
theorem getFileURL_is_pure_composition (endpoint : String) (id : FileId)
    (accessHash : FileAccessHash) :
    GetFileURL endpoint ⟨id, accessHash⟩ =
      endpoint ++ "/files/download/" ++ toString id ++ "/" ++ accessHash ∧
    GetFileURL "https://x" ⟨42, "h"⟩ = "https://x/files/download/42/h" :=
  ⟨rfl, by decide⟩

/-- C2 counterexample: on a 500 response with body `"boom"`, `GetFeedQueue`
fails with an error that records the operation label and the status code
but not the response body: the claim that every operation's unexpected-status
error carries the body is false at this input. -/
theorem unexpectedStatus_body_counterexample :
    GetFeedQueue { statusCode := 500, body := Json.str "boom" } =
      Except.error (ApiError.status "get feed" 500) ∧
    (ApiError.status "get feed" 500).carriedBody = none ∧
    (ApiError.status "get feed" 500).carriedBody ≠ some (Json.str "boom") := by
  refine ⟨rfl, rfl, ?_⟩
  simp [ApiError.carriedBody]

/-- C2 amended: on a status that is neither 200 nor the operation's
specially-mapped statuses, every operation fails with a status error
carrying the status code; only `Generate`'s error additionally carries the
response body, the others carry an operation label and the code alone. -/
theorem unexpectedStatus_amended (resp : HttpResponse)
    (h200 : resp.statusCode ≠ 200) (h401 : resp.statusCode ≠ 401) :
    GetSelfDetails resp = Except.error (ApiError.status "get details" resp.statusCode) ∧
    GetUserDetails resp = Except.error (ApiError.status "get user details" resp.statusCode) ∧
    GenerateFriendToken resp = Except.error (ApiError.status "generate token" resp.statusCode) ∧
    AddFriend resp = Except.error (ApiError.status "add friend" resp.statusCode) ∧
    (resp.statusCode ≠ 404 →
      SendFriendRequest resp = Except.error (ApiError.status "send request" resp.statusCode) ∧
      DeclineFriendRequest resp =
        Except.error (ApiError.status "decline request" resp.statusCode)) ∧
    GetNetworkDetails resp = Except.error (ApiError.status "get network" resp.statusCode) ∧
    GetFeedQueue resp = Except.error (ApiError.status "get feed" resp.statusCode) ∧
    UploadFile resp = Except.error (ApiError.status "upload" resp.statusCode) ∧
    (∀ nickname description interests avatar,
      Generate nickname description interests avatar resp =
        Except.error (ApiError.statusWithBody resp.statusCode resp.body)) ∧
    (∀ context code, (ApiError.status context code).carriedCode = some code ∧
      (ApiError.status context code).carriedBody = none) ∧
    (∀ code b, (ApiError.statusWithBody code b).carriedCode = some code ∧
      (ApiError.statusWithBody code b).carriedBody = some b) := by
  refine ⟨?_, ?_, ?_, ?_, fun h404 => ⟨?_, ?_⟩, ?_, ?_, ?_, fun n d i a => ?_,
      fun c k => ⟨rfl, rfl⟩, fun k b => ⟨rfl, rfl⟩⟩ <;>
    simp [GetSelfDetails, GetUserDetails, GenerateFriendToken, AddFriend, SendFriendRequest,
      DeclineFriendRequest, GetNetworkDetails, GetFeedQueue, UploadFile, Generate,
      h200, h401, *]

/-- C2 amended witness: a concrete 500 response. -/
theorem unexpectedStatus_amended_witness :
    GetSelfDetails { statusCode := 500, body := Json.str "x" } =
      Except.error (ApiError.status "get details" 500) :=
  (unexpectedStatus_amended { statusCode := 500, body := Json.str "x" }
    (by decide) (by decide)).1

/-- C6: given valid inputs and no avatar, a 200 response whose object body
has an integer `id` field and 256-character `accessHash` and `token` string
fields makes `Generate` succeed with exactly the decoded fields. -/
theorem generate_succeeds_with_decoded_fields (nickname description : String)
    (interests : List String) (fs : List (String × Json)) (i : Int) (a t : String)
    (hnick : nickname.length ≤ 256) (hdesc : description.length ≤ 1024)
    (hints : ∀ x ∈ interests, x.length ≤ 64)
    (ha : a.length = 256) (ht : t.length = 256)
    (hid : getField fs "id" = Json.num i)
    (hah : getField fs "accessHash" = Json.str a)
    (htk : getField fs "token" = Json.str t) :
    Generate nickname description interests none { statusCode := 200, body := Json.obj fs } =
      Except.ok ⟨i, a, t⟩ := by
  simp [Generate, decodeGenerateResponse, hid, hah, htk, decodeInt, decodeStr, ok_bind,
    except_pure]

/-- C6 witness: a concrete 200 body with 256-character credentials. -/
theorem generate_succeeds_with_decoded_fields_witness :
    Generate "n" "" [] none
        { statusCode := 200,
          body := Json.obj
            [("id", Json.num 1),
             ("accessHash", Json.str (String.mk (List.replicate 256 'a'))),
             ("token", Json.str (String.mk (List.replicate 256 'b')))] } =
      Except.ok ⟨1, String.mk (List.replicate 256 'a'), String.mk (List.replicate 256 'b')⟩ :=
  generate_succeeds_with_decoded_fields "n" "" [] _ 1 _ _
    (by decide) (by decide) (by simp) (by decide) (by decide) rfl rfl rfl

/-- C8: the request executor attaches exactly the `Content-Type` header plus,
when an `Authorization` is present, the `X-User-Id` and `X-Token` headers
(carrying the user id and token; the access hash appears in no header), and
no auth headers otherwise; the body is the serialized payload when present
and is omitted entirely otherwise. -/
theorem doRequest_headers_and_body {α : Type} (endpoint method path : String)
    (auth : Option Authorization) (body : Option α) (enc : α → Json) :
    (∀ a, auth = some a →
      (doRequest endpoint method path auth body enc).headers =
        [("Content-Type", "application/json"),
         ("X-User-Id", toString a.id), ("X-Token", a.token)]) ∧
    (auth = none →
      (doRequest endpoint method path auth body enc).headers =
        [("Content-Type", "application/json")]) ∧
    (∀ p, body = some p →
      (doRequest endpoint method path auth body enc).body = some (enc p)) ∧
    (body = none → (doRequest endpoint method path auth body enc).body = none) := by
  refine ⟨fun a ha => ?_, fun ha => ?_, fun p hp => ?_, fun hp => ?_⟩ <;>
    subst_vars <;> rfl

/-- C8 witness: a concrete authenticated `AddFriend` request. -/
theorem doRequest_headers_and_body_witness :
    (doRequest "http://localhost:8080" "POST" "/friends/add"
        (some ⟨7, "hash", "tok"⟩) (some (⟨"ft", 9⟩ : addFriendRequest))
        encodeAddFriendRequest).headers =
      [("Content-Type", "application/json"), ("X-User-Id", "7"), ("X-Token", "tok")] ∧
    (doRequest "http://localhost:8080" "POST" "/friends/add"
        (some ⟨7, "hash", "tok"⟩) (some (⟨"ft", 9⟩ : addFriendRequest))
        encodeAddFriendRequest).body =
      some (Json.obj [("token", Json.str "ft"), ("userId", Json.num 9)]) := by
  have h := doRequest_headers_and_body "http://localhost:8080" "POST" "/friends/add"
    (some ⟨7, "hash", "tok"⟩) (some (⟨"ft", 9⟩ : addFriendRequest)) encodeAddFriendRequest
  exact ⟨by simpa using h.1 ⟨7, "hash", "tok"⟩ rfl, by simpa [encodeAddFriendRequest] using h.2.2.1 ⟨"ft", 9⟩ rfl⟩

/-! Round-trip lemmas for the `FeedQueue` payload (claim C9). -/

theorem decode_encode_fileDescriptor (d : FileDescriptor) :
    decodeFileDescriptor (encodeFileDescriptor d) = Except.ok d := by
  obtain ⟨id, accessHash⟩ := d
  simp [encodeFileDescriptor, decodeFileDescriptor, getField, decodeInt, decodeStr,
    ok_bind, except_pure]

theorem decode_encode_optFileDescriptor (d : Option FileDescriptor) :
    decodeOptFileDescriptor (encodeOptFileDescriptor d) = Except.ok d := by
  cases d with
  | none => rfl
  | some d =>
    obtain ⟨id, accessHash⟩ := d
    simp [encodeOptFileDescriptor, encodeFileDescriptor, decodeOptFileDescriptor,
      decodeFileDescriptor, getField, decodeInt, decodeStr, ok_bind, except_pure]

theorem decode_encode_userDetails (u : UserDetails) :
    decodeUserDetails (encodeUserDetails u) = Except.ok u := by
  obtain ⟨id, accessHash, nickname, description, interests, avatar⟩ := u
  simp only [encodeUserDetails, decodeUserDetails, getField]
  simp [decodeInt, decodeStr, decodeList, ok_bind, except_pure,
    decodeEach_map_encode Json.str decodeStr decodeStr_str,
    decode_encode_optFileDescriptor]

theorem decode_encode_feedEntry (e : FeedEntry) :
    decodeFeedEntry (encodeFeedEntry e) = Except.ok e := by
  obtain ⟨isExtendedNetwork, commonFriends, details⟩ := e
  simp only [encodeFeedEntry, decodeFeedEntry, getField]
  simp [decodeBool, decodeList, ok_bind, except_pure,
    decodeEach_map_encode encodeUserDetails decodeUserDetails decode_encode_userDetails,
    decode_encode_userDetails]

/-- C9: marshalling a `FeedQueue` to JSON and unmarshalling the result
yields the original value, entry order preserved. -/
theorem feedQueue_roundtrip (q : FeedQueue) :
    decodeFeedQueue (encodeFeedQueue q) = Except.ok q := by
  obtain ⟨entries⟩ := q
  simp only [encodeFeedQueue, decodeFeedQueue, getField]
  simp [decodeList, ok_bind, except_pure,
    decodeEach_map_encode encodeFeedEntry decodeFeedEntry decode_encode_feedEntry]

/-- C10: the decode path applies no length validation: a 200 body whose
`token` field holds a string of any length is returned unchanged by
`GenerateFriendToken`, and `Generate` likewise returns the decoded
`accessHash` and `token` strings unchanged whatever their lengths. -/
theorem decode_path_skips_length_validation (fs gs : List (String × Json))
    (t u a : String) (i : Int)
    (ht : getField fs "token" = Json.str t)
    (hgi : getField gs "id" = Json.num i)
    (hga : getField gs "accessHash" = Json.str a)
    (hgt : getField gs "token" = Json.str u) :
    GenerateFriendToken { statusCode := 200, body := Json.obj fs } = Except.ok t ∧
    ∀ nickname description interests avatar,
      Generate nickname description interests avatar { statusCode := 200, body := Json.obj gs } =
        Except.ok ⟨i, a, u⟩ := by
  constructor
  · simp [GenerateFriendToken, decodeGenerateFriendTokenResponse, ht, decodeStr, ok_bind,
      except_pure]
  · intro nickname description interests avatar
    simp [Generate, decodeGenerateResponse, hgi, hga, hgt, decodeInt, decodeStr, ok_bind,
      except_pure]

/-- C10 witness: a 5-character friend token and 1-character credentials are
accepted unchanged by the decode path. -/
theorem decode_path_skips_length_validation_witness :
    GenerateFriendToken { statusCode := 200, body := Json.obj [("token", Json.str "short")] } =
      Except.ok "short" ∧
    Generate "n" "" [] none
        { statusCode := 200,
          body := Json.obj
            [("id", Json.num 2), ("accessHash", Json.str "x"), ("token", Json.str "y")] } =
      Except.ok ⟨2, "x", "y"⟩ := by
  have h := decode_path_skips_length_validation [("token", Json.str "short")]
    [("id", Json.num 2), ("accessHash", Json.str "x"), ("token", Json.str "y")]
    "short" "y" "x" 2 rfl rfl rfl rfl
  exact ⟨h.1, h.2 "n" "" [] none⟩

end Friendly
